import Mathlib

/-!
Shallow embedding of the computational core of `src/main_app.py` (a DEI
analytics dashboard).  The UI layer (streamlit widgets, plotly charts) is
external plumbing; what is embedded here is:

* `AdvancedDEIPlatform.load_industry_data` (lines 13-34): seeded synthesis of
  one record per company, each bounded metric a clamped affine transform of a
  single normal draw (`base_score`), plus independent draws for head count,
  revenue and DEI budget.
* the benchmarking scorecard and radar-comparison logic of
  `display_benchmarking` (lines 102-159).
* the impact-simulator arithmetic of `display_impact_simulator`
  (lines 354-365).

The numpy pseudo-random generator is modelled abstractly: an `RngOps` bundle
supplies the three draw primitives used by the source (`normal`, `choice`,
`uniform`) together with `seed`, each a deterministic function of an explicit
generator state, exactly as numpy's draws are deterministic functions of the
global generator state.  Library-level facts about the draws (a uniform draw
lies in its interval, a choice comes from its list) are stated as explicit
hypotheses on the bundle where a claim needs them.
-/

namespace DEI

/-- Abstract pseudo-random generator state (numpy's global generator state). -/
abbrev Rng := Nat

/-- The draw primitives the source uses, as deterministic state transformers:
`seed` models `np.random.seed`, `normal` models `np.random.normal(mean, std)`,
`choice` models `np.random.choice(list)`, `uniform` models
`np.random.uniform(lo, hi)`. -/
structure RngOps where
  seed : Nat → Rng
  normal : ℚ → ℚ → Rng → ℚ × Rng
  choice : List Nat → Rng → Nat × Rng
  uniform : ℚ → ℚ → Rng → ℚ × Rng

/-- One row of the DataFrame built in `load_industry_data` (lines 21-33). -/
structure OrgRecord where
  company : String
  gender_diversity : ℚ
  leadership_diversity : ℚ
  pay_equity_score : ℚ
  inclusion_survey_score : ℚ
  retention_rate_diverse : ℚ
  promotion_rate_diverse : ℚ
  employees : Nat
  revenue_cr : ℚ
  dei_budget_pct : ℚ
  region : String
deriving Repr, DecidableEq

/-- The source's clamping idiom `max(lo, min(hi, x))` (lines 23-28). -/
def clamp (lo hi x : ℚ) : ℚ := max lo (min hi x)

/-- The literal head-count choice set of line 29. -/
def employeeChoices : List Nat :=
  [5000, 250000, 600000, 200000, 220000, 50000, 300000, 350000]

/-- The hard-coded company list of line 16. -/
def companies : List String :=
  ["TechMahindra", "Infosys", "TCS", "Wipro", "HCL", "Accenture",
   "Capgemini", "Cognizant"]

/-- The loop body of lines 20-33: draw `base_score ~ normal(0.65, 0.15)`,
then build the record whose bounded metrics are clamped affine transforms of
`base_score`, drawing `employees`, `revenue_cr` and `dei_budget_pct`
independently (dict values evaluate in source order). -/
def genRecord (ops : RngOps) (company : String) (g : Rng) : OrgRecord × Rng :=
  let b := ops.normal 0.65 0.15 g
  let e := ops.choice employeeChoices b.2
  let rev := ops.uniform 500 250000 e.2
  let bud := ops.uniform 0.1 2.5 rev.2
  ({ company := company
     gender_diversity := clamp 0.15 0.85 b.1
     leadership_diversity := clamp 0.1 0.7 (b.1 - 0.15)
     pay_equity_score := clamp 0.6 0.98 (b.1 + 0.1)
     inclusion_survey_score := clamp 3.0 5.0 (b.1 * 5 + 2)
     retention_rate_diverse := clamp 0.7 0.95 (b.1 + 0.2)
     promotion_rate_diverse := clamp 0.08 0.25 (b.1 * 0.3)
     employees := e.1
     revenue_cr := rev.1
     dei_budget_pct := bud.1
     region := "India" }, bud.2)

/-- The `for company in companies` loop of lines 19-33, threading the
generator state through the per-company draws. -/
def synthRecords (ops : RngOps) : List String → Rng → List OrgRecord × Rng
  | [], g => ([], g)
  | n :: ns, g =>
    let p := genRecord ops n g
    let q := synthRecords ops ns p.2
    (p.1 :: q.1, q.2)

/-- The synthesis entry point: seed the generator, then generate one record
per name (the source fixes `seed = 42` and `names = companies`; the seed and
name list are the parameters the surrounding spec calls `(seed,
organizationNames)`). -/
def synthesize (ops : RngOps) (seed : Nat) (names : List String) :
    List OrgRecord :=
  (synthRecords ops names (ops.seed seed)).1

/-- `load_industry_data` itself: `np.random.seed(42)` then the loop over the
hard-coded company list (lines 13-34). -/
def load_industry_data (ops : RngOps) : List OrgRecord :=
  synthesize ops 42 companies

/-- `load_industry_data` as seen by a caller while the process-global numpy
generator holds some ambient state: line 15 (`np.random.seed(42)`) overwrites
that state before any draw, so the ambient state is discarded. -/
def synthesizeFrom (ops : RngOps) (_ambient : Rng) (seed : Nat)
    (names : List String) : List OrgRecord :=
  let g := ops.seed seed
  (synthRecords ops names g).1

/-- The six clamped affine transforms of a single base affinity value, as in
lines 23-28. -/
def MetricsFromBase (r : OrgRecord) (base : ℚ) : Prop :=
  r.gender_diversity = clamp 0.15 0.85 base ∧
  r.leadership_diversity = clamp 0.1 0.7 (base - 0.15) ∧
  r.pay_equity_score = clamp 0.6 0.98 (base + 0.1) ∧
  r.inclusion_survey_score = clamp 3.0 5.0 (base * 5 + 2) ∧
  r.retention_rate_diverse = clamp 0.7 0.95 (base + 0.2) ∧
  r.promotion_rate_diverse = clamp 0.08 0.25 (base * 0.3)

/-- Every bounded metric within its clamp interval. -/
def InRanges (r : OrgRecord) : Prop :=
  (0.15 ≤ r.gender_diversity ∧ r.gender_diversity ≤ 0.85) ∧
  (0.1 ≤ r.leadership_diversity ∧ r.leadership_diversity ≤ 0.7) ∧
  (0.6 ≤ r.pay_equity_score ∧ r.pay_equity_score ≤ 0.98) ∧
  (3.0 ≤ r.inclusion_survey_score ∧ r.inclusion_survey_score ≤ 5.0) ∧
  (0.7 ≤ r.retention_rate_diverse ∧ r.retention_rate_diverse ≤ 0.95) ∧
  (0.08 ≤ r.promotion_rate_diverse ∧ r.promotion_rate_diverse ≤ 0.25)

theorem le_clamp (lo hi x : ℚ) : lo ≤ clamp lo hi x := le_max_left _ _

theorem clamp_le (lo hi x : ℚ) (h : lo ≤ hi) : clamp lo hi x ≤ hi :=
  max_le h (min_le_left _ _)

theorem genRecord_metricsFromBase (ops : RngOps) (name : String) (g : Rng) :
    MetricsFromBase (genRecord ops name g).1 ((ops.normal 0.65 0.15 g).1) := by
  refine ⟨rfl, rfl, rfl, rfl, rfl, rfl⟩

theorem metricsFromBase_inRanges {r : OrgRecord} {base : ℚ}
    (h : MetricsFromBase r base) : InRanges r := by
  obtain ⟨h1, h2, h3, h4, h5, h6⟩ := h
  unfold InRanges
  rw [h1, h2, h3, h4, h5, h6]
  refine ⟨⟨le_clamp _ _ _, clamp_le _ _ _ (by norm_num)⟩,
    ⟨le_clamp _ _ _, clamp_le _ _ _ (by norm_num)⟩,
    ⟨le_clamp _ _ _, clamp_le _ _ _ (by norm_num)⟩,
    ⟨le_clamp _ _ _, clamp_le _ _ _ (by norm_num)⟩,
    ⟨le_clamp _ _ _, clamp_le _ _ _ (by norm_num)⟩,
    ⟨le_clamp _ _ _, clamp_le _ _ _ (by norm_num)⟩⟩

theorem mem_synthRecords {ops : RngOps} {r : OrgRecord} :
    ∀ (ns : List String) (g : Rng), r ∈ (synthRecords ops ns g).1 →
      ∃ name g', r = (genRecord ops name g').1 := by
  intro ns
  induction ns with
  | nil => intro g h; simp [synthRecords] at h
  | cons n ns ih =>
    intro g h
    rcases List.mem_cons.mp h with h | h
    · exact ⟨n, g, h⟩
    · exact ih _ h

theorem mem_synthesize {ops : RngOps} {seed : Nat} {names : List String}
    {r : OrgRecord} (h : r ∈ synthesize ops seed names) :
    ∃ name g', r = (genRecord ops name g').1 :=
  mem_synthRecords names _ h

/-! ### Benchmarking (`display_benchmarking`, lines 85-167) -/

/-- The four scorecard targets hard-coded in lines 102-107, lifted to a
configuration record so the target values appear once. -/
structure Targets where
  genderTarget : ℚ
  leadershipTarget : ℚ
  payEquityTarget : ℚ
  inclusionTarget : ℚ
deriving Repr, DecidableEq

/-- The literal targets 0.4 / 0.3 / 0.9 / 0.8 of lines 103-106. -/
def defaultTargets : Targets := ⟨0.4, 0.3, 0.9, 0.8⟩

/-- One entry of the `metrics` list of lines 102-107: a label, the metric
value (fraction scale, inclusion divided by 5) and its target. -/
structure ScoreEntry where
  metric : String
  value : ℚ
  target : ℚ
deriving Repr, DecidableEq

/-- The `metrics` list of lines 102-107 for one company row. -/
def scorecardMetrics (r : OrgRecord) (t : Targets) : List ScoreEntry :=
  [⟨"Gender Diversity", r.gender_diversity, t.genderTarget⟩,
   ⟨"Leadership Diversity", r.leadership_diversity, t.leadershipTarget⟩,
   ⟨"Pay Equity", r.pay_equity_score, t.payEquityTarget⟩,
   ⟨"Inclusion", r.inclusion_survey_score / 5, t.inclusionTarget⟩]

/-- `delta = value - target`, line 116. -/
def delta (e : ScoreEntry) : ℚ := e.value - e.target

/-- The scorecard as rendered: the loop of lines 109-117 shows each value and
its delta through the `%` format, i.e. scaled by 100 to the 0-100 scale also
used by the radar chart axis. One tuple `(metric, value*100, target*100,
delta*100)` per configured target metric. -/
def computeScorecard (r : OrgRecord) (t : Targets) :
    List (String × ℚ × ℚ × ℚ) :=
  (scorecardMetrics r t).map fun e =>
    (e.metric, e.value * 100, e.target * 100, delta e * 100)

/-- The six radar-chart values of lines 123-130 / 146-153, each scaled to
0-100. -/
def radarValues (r : OrgRecord) : List ℚ :=
  [r.gender_diversity * 100,
   r.leadership_diversity * 100,
   r.pay_equity_score * 100,
   (r.inclusion_survey_score / 5) * 100,
   r.retention_rate_diverse * 100,
   r.promotion_rate_diverse * 100]

/-- `df[df['company'] == name].iloc[0]`: the first row of the frame carrying
the given company name (lines 96, 145). -/
def firstWithName (df : List OrgRecord) (name : String) : Option OrgRecord :=
  df.find? fun r => r.company = name

/-- The comparison loop of lines 143-159: for each benchmark company name, in
caller order, skip it when it equals the selected company, otherwise look up
its first row and emit its radar trace. -/
def compareEntities (df : List OrgRecord) (selected_company : String)
    (benchmark_companies : List String) : List (String × List ℚ) :=
  benchmark_companies.filterMap fun b =>
    if b ≠ selected_company then
      (firstWithName df b).map fun r => (b, radarValues r)
    else none

/-! ### Impact simulator (`display_impact_simulator`, lines 354-365) -/

/-- `hiring_cost = 0.3 * base_salary`, line 356. -/
def hiring_cost (base_salary : ℚ) : ℚ := 0.3 * base_salary

/-- `turnover_cost = 1.5 * base_salary`, line 357. -/
def turnover_cost (base_salary : ℚ) : ℚ := 1.5 * base_salary

/-- Errors the simulator arithmetic can surface.  The source has no explicit
checks; the only failure a call can produce is Python's `ZeroDivisionError`
from line 365 when the budget is zero. `InvalidInput` is listed because the
surrounding spec names it; no code path produces it. -/
inductive SimError where
  | DivisionByZero
  | InvalidInput
deriving Repr, DecidableEq

/-- The simulator's output bundle (all quantities exactly as computed by
lines 355-365): the three benefit components and their sum in the same
lakh-scale units, the invested budget in lakhs, and the ROI percentage. -/
structure ImpactProjection where
  reducedTurnoverBenefit : ℚ
  hiringSavingsBenefit : ℚ
  productivityGainBenefit : ℚ
  totalBenefit : ℚ
  investedAmount : ℚ
  roiPercent : ℚ
deriving Repr, DecidableEq

/-- Lines 354-365 of the source: `base_salary = 12` lakhs, benefit components
from the three sliders, `total_benefits` their sum, and
`roi = ((total_benefits - budget*100000) / (budget*100000)) * 100`.  The
division is fallible: a zero budget makes the denominator zero and the call
fails with `DivisionByZero` (Python's `ZeroDivisionError`).  Note the source
multiplies only the budget by 100000, not `total_benefits`. -/
def simulateImpact (diversity_increase inclusion_score retention_improvement
    budget_allocation employee_count : ℚ) : Except SimError ImpactProjection :=
  let base_salary : ℚ := 12
  let reduced_turnover :=
    employee_count * (retention_improvement / 100) * turnover_cost base_salary
  let hiring_savings :=
    employee_count * (diversity_increase / 100) * hiring_cost base_salary
  let productivity_gain :=
    employee_count * (inclusion_score / 100) * base_salary * 0.15
  let total_benefits := reduced_turnover + hiring_savings + productivity_gain
  if budget_allocation * 100000 = 0 then
    Except.error SimError.DivisionByZero
  else
    Except.ok
      { reducedTurnoverBenefit := reduced_turnover
        hiringSavingsBenefit := hiring_savings
        productivityGainBenefit := productivity_gain
        totalBenefit := total_benefits
        investedAmount := budget_allocation
        roiPercent := ((total_benefits - budget_allocation * 100000) /
          (budget_allocation * 100000)) * 100 }

/-! ### Library-behaviour hypotheses on the abstract generator, and concrete
test fixtures used by witnesses. -/

/-- numpy's documented behaviour of `np.random.choice`: the draw is an
element of the given (non-empty) list. -/
def ChoiceMem (ops : RngOps) : Prop :=
  ∀ (l : List Nat) (g : Rng), l ≠ [] → (ops.choice l g).1 ∈ l

/-- numpy's documented behaviour of `np.random.uniform(lo, hi)`: the draw
lies in the closed interval `[lo, hi]`. -/
def UniformMem (ops : RngOps) : Prop :=
  ∀ (lo hi : ℚ) (g : Rng), lo ≤ hi →
    lo ≤ (ops.uniform lo hi g).1 ∧ (ops.uniform lo hi g).1 ≤ hi

/-- A concrete generator instance for evaluating the development on inputs:
`normal` returns its mean, `choice` the head of its list, `uniform` its lower
bound; the state just counts draws. -/
def testOps : RngOps where
  seed n := n
  normal mean _std g := (mean, g + 1)
  choice l g := (l.headD 0, g + 1)
  uniform lo _hi g := (lo, g + 1)

theorem testOps_choiceMem : ChoiceMem testOps := by
  intro l g hl
  cases l with
  | nil => exact absurd rfl hl
  | cons a l => exact List.mem_cons_self a l

theorem testOps_uniformMem : UniformMem testOps := by
  intro lo hi g h
  exact ⟨le_refl lo, h⟩

/-- The single record `synthesize testOps 7 ["A"]` produces. -/
def w1rec : OrgRecord := (genRecord testOps "A" (testOps.seed 7)).1

theorem w1rec_mem : w1rec ∈ synthesize testOps 7 ["A"] :=
  List.Mem.head _

/-- A handmade row with every metric equal to `v`, for benchmarking tests. -/
def mkTestOrg (name : String) (v : ℚ) : OrgRecord :=
  { company := name
    gender_diversity := v
    leadership_diversity := v
    pay_equity_score := v
    inclusion_survey_score := v
    retention_rate_diverse := v
    promotion_rate_diverse := v
    employees := 1000
    revenue_cr := 100
    dei_budget_pct := 1
    region := "India" }

/-- A three-row frame: focal company `F` plus companies `A` and `B`. -/
def testDf : List OrgRecord :=
  [mkTestOrg "F" 0.5, mkTestOrg "A" 0.6, mkTestOrg "B" 0.7]

/-- Pushing the focal-exclusion test of `compareEntities` through
`List.filterMap`: filtering on the name first and then emitting traces yields
the same list, which packages both the exclusion of the selected name and the
preservation of caller order and multiplicity. -/
theorem filterMap_if {α β : Type} (q : α → Prop) [DecidablePred q]
    (f : α → Option β) :
    ∀ l : List α, (l.filterMap fun a => if q a then f a else none) =
      (l.filter fun a => q a).filterMap f := by
  intro l
  induction l with
  | nil => rfl
  | cons a l ih =>
    by_cases h : q a
    · cases hf : f a with
      | none => simp [List.filterMap_cons, List.filter_cons, h, hf, ih]
      | some b => simp [List.filterMap_cons, List.filter_cons, h, hf, ih]
    · simp [List.filterMap_cons, List.filter_cons, h, ih]

theorem compareEntities_eq_filter (df : List OrgRecord)
    (sel : String) (bs : List String) :
    compareEntities df sel bs =
      (bs.filter fun b => b ≠ sel).filterMap
        (fun b => (firstWithName df b).map fun r => (b, radarValues r)) :=
  filterMap_if (fun b => b ≠ sel)
    (fun b => (firstWithName df b).map fun r => (b, radarValues r)) bs

/-- Evaluation of the simulator at the documented regression input. -/
theorem simulateImpact_regression_eval :
    simulateImpact 15 12 8 50 5000 = Except.ok
      { reducedTurnoverBenefit := 7200, hiringSavingsBenefit := 2700,
        productivityGainBenefit := 1080, totalBenefit := 10980,
        investedAmount := 50, roiPercent := -249451/2500 } := by
  have hden : (50 : ℚ) * 100000 ≠ 0 := by norm_num
  simp only [simulateImpact, hiring_cost, turnover_cost]
  rw [if_neg hden]
  simp only [Except.ok.injEq, ImpactProjection.mk.injEq]
  norm_num

/-- Evaluation of the simulator at a negative diversity percentage. -/
theorem simulateImpact_negative_eval :
    simulateImpact (-5) 12 8 50 5000 = Except.ok
      { reducedTurnoverBenefit := 7200, hiringSavingsBenefit := -900,
        productivityGainBenefit := 1080, totalBenefit := 7380,
        investedAmount := 50, roiPercent := -249631/2500 } := by
  have hden : (50 : ℚ) * 100000 ≠ 0 := by norm_num
  simp only [simulateImpact, hiring_cost, turnover_cost]
  rw [if_neg hden]
  simp only [Except.ok.injEq, ImpactProjection.mk.injEq]
  norm_num

/-! ### Claims -/

/-- Claim C1: every record produced by the synthesizer carries a single base
affinity value of which each bounded metric is the specified clamped affine
transform (`genderDiversity = clamp(base, 0.15, 0.85)`,
`leadershipDiversity = clamp(base - 0.15, 0.10, 0.70)`,
`payEquityScore = clamp(base + 0.10, 0.60, 0.98)`,
`inclusionSurveyScore = clamp(base*5 + 2, 3.0, 5.0)`,
`retentionRateDiverse = clamp(base + 0.20, 0.70, 0.95)`,
`promotionRateDiverse = clamp(base*0.30, 0.08, 0.25)`), and consequently
every bounded metric lies within its declared clamp interval. -/
theorem claim1_metrics_clamped_affine (ops : RngOps) (seed : Nat)
    (names : List String) (r : OrgRecord)
    (hr : r ∈ synthesize ops seed names) :
    ∃ base : ℚ, MetricsFromBase r base ∧ InRanges r := by
  obtain ⟨name, g', rfl⟩ := mem_synthesize hr
  exact ⟨_, genRecord_metricsFromBase ops name g',
    metricsFromBase_inRanges (genRecord_metricsFromBase ops name g')⟩

/-- Concrete instance of C1 on the record generated for name `A` under the
test generator. -/
theorem claim1_witness :
    ∃ base : ℚ, MetricsFromBase w1rec base ∧ InRanges w1rec :=
  claim1_metrics_clamped_affine testOps 7 ["A"] w1rec w1rec_mem

/-- Claim C2 counterexample: at the documented input (15, 12, 8, 50, 5000)
the simulator's ROI does NOT equal the claimed formula in which `totalBenefit`
is also converted to currency units by the 100,000 multiplier — the source
multiplies only the budget by 100,000 (line 365). -/
theorem claim2_counterexample :
    (simulateImpact 15 12 8 50 5000).toOption =
      some { reducedTurnoverBenefit := 7200, hiringSavingsBenefit := 2700,
             productivityGainBenefit := 1080, totalBenefit := 10980,
             investedAmount := 50, roiPercent := -249451/2500 } ∧
    ((-249451/2500 : ℚ) ≠
      ((10980 * 100000 - 50 * 100000) / (50 * 100000)) * 100) := by
  constructor
  · rw [simulateImpact_regression_eval]
    rfl
  · norm_num

/-- Claim C2 (amended): for every input with a nonzero budget,
`totalBenefit` is the exact sum of the three benefit components (in the lakh
scale in which they are computed) and
`roiPercent = ((totalBenefit - budgetLakhs*100000) / (budgetLakhs*100000)) * 100`:
only the invested amount is converted to absolute currency units via the
fixed multiplier 100,000; `totalBenefit` enters the ratio unconverted. -/
theorem claim2_roi_units (d i ret b e : ℚ) (hb : b ≠ 0) :
    ∃ p : ImpactProjection,
      simulateImpact d i ret b e = Except.ok p ∧
      p.totalBenefit = p.reducedTurnoverBenefit + p.hiringSavingsBenefit +
        p.productivityGainBenefit ∧
      p.investedAmount = b ∧
      p.roiPercent = ((p.totalBenefit - b * 100000) / (b * 100000)) * 100 := by
  have hden : b * 100000 ≠ 0 := mul_ne_zero hb (by norm_num)
  simp only [simulateImpact]
  rw [if_neg hden]
  exact ⟨_, rfl, rfl, rfl, rfl⟩

/-- Concrete instance of the amended C2 at (15, 12, 8, 50, 5000). -/
theorem claim2_witness :
    ∃ p : ImpactProjection,
      simulateImpact 15 12 8 50 5000 = Except.ok p ∧
      p.totalBenefit = p.reducedTurnoverBenefit + p.hiringSavingsBenefit +
        p.productivityGainBenefit ∧
      p.investedAmount = 50 ∧
      p.roiPercent = ((p.totalBenefit - 50 * 100000) / (50 * 100000)) * 100 :=
  claim2_roi_units 15 12 8 50 5000 (by norm_num)

/-- Claim C3 counterexample: at (15, 12, 8, 50, 5000) the source computes
`reduced_turnover = 5000 * 0.08 * 18 = 7200` lakh-units, not the 7,200,000
the claim states. -/
theorem claim3_counterexample :
    (simulateImpact 15 12 8 50 5000).toOption.map
      ImpactProjection.reducedTurnoverBenefit = some 7200 ∧
    (7200 : ℚ) ≠ 7200000 := by
  constructor
  · rw [simulateImpact_regression_eval]
    rfl
  · norm_num

/-- Claim C3 (amended): the regression vector
`simulateImpact(15, 12, 8, 50, 5000)` with `base_salary = 12` yields
`hiring_cost = 3.6`, `turnover_cost = 18`,
`reducedTurnoverBenefit = 5000*0.08*18 = 7200` (lakh-units),
`hiringSavingsBenefit = 2700`, `productivityGainBenefit = 1080`,
`totalBenefit = 10980`, and
`roiPercent = ((10980 - 5000000)/5000000)*100 = -249451/2500 ≈ -99.78`. -/
theorem claim3_regression_vector :
    hiring_cost 12 = 3.6 ∧ turnover_cost 12 = 18 ∧
    (7200 : ℚ) = 5000 * (8/100) * 18 ∧
    (simulateImpact 15 12 8 50 5000).toOption =
      some { reducedTurnoverBenefit := 7200, hiringSavingsBenefit := 2700,
             productivityGainBenefit := 1080, totalBenefit := 10980,
             investedAmount := 50, roiPercent := -249451/2500 } := by
  refine ⟨by norm_num [hiring_cost], by norm_num [turnover_cost],
    by norm_num, ?_⟩
  rw [simulateImpact_regression_eval]
  rfl

/-- Claim C4: with a zero budget the ROI denominator of line 365 is zero and
the simulator fails with `DivisionByZero` for every choice of the other
inputs; no numeric ROI is returned. -/
theorem claim4_zero_budget_division_by_zero (x y z e : ℚ) :
    simulateImpact x y z 0 e = Except.error SimError.DivisionByZero := by
  simp [simulateImpact]

/-- Claim C5: synthesis is deterministic — the generator is freshly seeded on
entry (line 15), so the output is independent of the ambient pre-call
generator state, and two calls with identical (seed, names) agree. -/
theorem claim5_determinism (ops : RngOps) (a1 a2 : Rng) (seed : Nat)
    (names : List String) :
    synthesizeFrom ops a1 seed names = synthesizeFrom ops a2 seed names ∧
    synthesizeFrom ops a1 seed names = synthesize ops seed names :=
  ⟨rfl, rfl⟩

/-- Claim C6 counterexample: a duplicated benchmark name is NOT collapsed to
its first occurrence — the loop of lines 143-159 emits one trace per
occurrence, so `["A", "A"]` yields two comparison entries, not one. -/
theorem claim6_counterexample :
    (compareEntities testDf "F" ["A", "A"]).length = 2 ∧ (2 : Nat) ≠ 1 := by
  constructor
  · rfl
  · norm_num

/-- Claim C6 (amended): the comparator excludes the selected (focal) company
and preserves the caller-supplied order — it equals the trace emission over
the focal-filtered input, which also shows each occurrence of a duplicated
name yields its own entry (no de-duplication); in particular with input
`[focal, A, B]` the comparisons are exactly A and B, wherever the focal name
appears. -/
theorem claim6_compare_filter :
    (∀ (df : List OrgRecord) (sel : String) (bs : List String),
      compareEntities df sel bs =
        (bs.filter fun b => b ≠ sel).filterMap
          (fun b => (firstWithName df b).map fun r => (b, radarValues r))) ∧
    compareEntities testDf "F" ["F", "A", "B"] =
      [("A", radarValues (mkTestOrg "A" 0.6)),
       ("B", radarValues (mkTestOrg "B" 0.7))] ∧
    compareEntities testDf "F" ["A", "F", "B"] =
      [("A", radarValues (mkTestOrg "A" 0.6)),
       ("B", radarValues (mkTestOrg "B" 0.7))] ∧
    compareEntities testDf "F" ["A", "B", "F"] =
      [("A", radarValues (mkTestOrg "A" 0.6)),
       ("B", radarValues (mkTestOrg "B" 0.7))] :=
  ⟨compareEntities_eq_filter, rfl, rfl, rfl⟩

/-- Claim C7: the scorecard has one tuple per configured target metric (four;
the default targets are 0.40 / 0.30 / 0.90 / 0.80), the inclusion entry is
`inclusionSurveyScore / 5`, values and targets are scaled to 0-100 by
multiplying by 100, and each gap equals the scaled value minus the scaled
target exactly, with no clamping. -/
theorem claim7_scorecard (r : OrgRecord) (t : Targets) :
    (computeScorecard r t).length = 4 ∧
    computeScorecard r t =
      (scorecardMetrics r t).map (fun e =>
        (e.metric, e.value * 100, e.target * 100,
          e.value * 100 - e.target * 100)) ∧
    (scorecardMetrics r t).map ScoreEntry.value =
      [r.gender_diversity, r.leadership_diversity, r.pay_equity_score,
       r.inclusion_survey_score / 5] ∧
    (scorecardMetrics r defaultTargets).map ScoreEntry.target =
      [0.4, 0.3, 0.9, 0.8] := by
  refine ⟨rfl, ?_, rfl, rfl⟩
  simp [computeScorecard, scorecardMetrics, delta, sub_mul]

/-- Claim C8 counterexample: a negative diversity percentage is accepted
without any validation — the simulator returns a numeric projection (with a
negative hiring-savings component), never an `InvalidInput` failure. -/
theorem claim8_counterexample :
    (simulateImpact (-5) 12 8 50 5000).toOption =
      some { reducedTurnoverBenefit := 7200, hiringSavingsBenefit := -900,
             productivityGainBenefit := 1080, totalBenefit := 7380,
             investedAmount := 50, roiPercent := -249631/2500 } := by
  rw [simulateImpact_negative_eval]
  rfl

/-- Claim C8 (amended): the simulator performs no input validation at all —
for every input with a nonzero budget (negative percentages and nonpositive
employee counts included) it returns a numeric projection; nothing is
rejected with `InvalidInput`. -/
theorem claim8_no_validation (d i ret b e : ℚ) (hb : b ≠ 0) :
    (simulateImpact d i ret b e).toOption.isSome = true := by
  have hden : b * 100000 ≠ 0 := mul_ne_zero hb (by norm_num)
  simp only [simulateImpact]
  rw [if_neg hden]
  rfl

/-- Concrete instance of the amended C8 at the invalid input (-5, 12, 8, 50,
5000). -/
theorem claim8_witness :
    (simulateImpact (-5) 12 8 50 5000).toOption.isSome = true :=
  claim8_no_validation (-5) 12 8 50 5000 (by norm_num)

/-- Claim C9 counterexample: an empty name list is not rejected — the loop of
lines 19-33 simply runs zero times and the call returns the empty record
sequence instead of failing with `InvalidInput`. -/
theorem claim9_counterexample :
    synthesize testOps 42 ([] : List String) = ([] : List OrgRecord) := rfl

/-- Claim C9 (amended): for every generator and seed, synthesis over an empty
name list returns the empty sequence; no emptiness validation exists. -/
theorem claim9_empty_names (ops : RngOps) (seed : Nat) :
    synthesize ops seed ([] : List String) = ([] : List OrgRecord) := rfl

/-- Claim C10: under the documented behaviour of the library draws (a choice
is an element of its list, a uniform draw lies in its interval), every
generated record has `employees` in the hard-coded choice set
{5000, 250000, 600000, 200000, 220000, 50000, 300000, 350000}, `revenue_cr`
in [500, 250000] and `dei_budget_pct` in [0.1, 2.5]. -/
theorem claim10_hardcoded_ranges (ops : RngOps) (hc : ChoiceMem ops)
    (hu : UniformMem ops) (seed : Nat) (names : List String) (r : OrgRecord)
    (hr : r ∈ synthesize ops seed names) :
    r.employees ∈ employeeChoices ∧
    (500 ≤ r.revenue_cr ∧ r.revenue_cr ≤ 250000) ∧
    (0.1 ≤ r.dei_budget_pct ∧ r.dei_budget_pct ≤ 2.5) := by
  obtain ⟨name, g', rfl⟩ := mem_synthesize hr
  refine ⟨hc employeeChoices _ (by simp [employeeChoices]), ?_, ?_⟩
  · exact hu 500 250000 _ (by norm_num)
  · exact hu 0.1 2.5 _ (by norm_num)

/-- Concrete instance of C10 on the record generated for name `A` under the
test generator. -/
theorem claim10_witness :
    w1rec.employees ∈ employeeChoices ∧
    (500 ≤ w1rec.revenue_cr ∧ w1rec.revenue_cr ≤ 250000) ∧
    (0.1 ≤ w1rec.dei_budget_pct ∧ w1rec.dei_budget_pct ≤ 2.5) :=
  claim10_hardcoded_ranges testOps testOps_choiceMem testOps_uniformMem
    7 ["A"] w1rec w1rec_mem

end DEI
